import Mathlib

/-!
Shallow embedding of the BIOCHAIN core contracts
(`study_registry`, `revenue_splitter`, `dataset_marketplace`) and proofs of
the spec's claims about them.

Modelling conventions:
* `Bytes` is `List Nat` (one `Nat` per byte); `BytesN<32>` values are `Bytes`
  together with a `length = 32` hypothesis where the source type enforces it.
* `Address` is `Nat`; `i128` amounts are `Int` (all amounts in play are tiny,
  far from the i128 bounds, so no wrap-around modelling is needed).
* Each contract's instance storage is an association list where the most
  recent binding of a key wins, mirroring the host key-value store.
* Soroban invocations are transactional: a contract call that fails reverts
  every write it made.  Operations therefore return `Except` carrying the
  new state only on success; `*_commit` wrappers give the committed state
  (the old state when the call failed).
* The external asset ledger (`token::Client::transfer`) is a parameter
  `transferOk : Address → Address → Int → Bool`; a failed transfer aborts
  the payout call (the host traps), which the embedding represents as the
  `TransferFailed` error value.
* A failing `RevenueSplitter.payout_for_dataset` sub-call inside
  `purchase_dataset` traps the whole purchase transaction
  (`env.invoke_contract` panics on callee failure); the embedding represents
  this as the distinguished `PFail.payoutTrap` outcome, which reverts the
  purchase.
-/

deriving instance DecidableEq for Except

namespace BioChain

abbrev Bytes := List Nat

abbrev Address := Nat

/-- First-match lookup in an association-list storage namespace. -/
def assocGet {K V : Type} [DecidableEq K] (k : K) : List (K × V) → Option V
  | [] => none
  | (k', v) :: rest => if k' = k then some v else assocGet k rest

/-- `storage.set`: the new binding shadows any older one. -/
def assocSet {K V : Type} [DecidableEq K] (k : K) (v : V) (l : List (K × V)) :
    List (K × V) :=
  (k, v) :: l

theorem assocGet_assocSet_self {K V : Type} [DecidableEq K] (k : K) (v : V)
    (l : List (K × V)) : assocGet k (assocSet k v l) = some v := by
  simp [assocGet, assocSet]

namespace StudyRegistry

/-- `StudyRecord` from `study_registry/src/lib.rs`. -/
structure StudyRecord where
  dataset_hash : Bytes
  contributor : Address
  timestamp : Nat
  deriving Repr, DecidableEq

/-- `Error` enum of the study registry contract. -/
inductive SError where
  | DuplicateStudy
  | InvalidAttestation
  | InvalidZKProof
  | StudyNotFound
  deriving Repr, DecidableEq

/-- Instance storage of the study registry: records keyed by `dataset_hash`. -/
structure RegistryState where
  studies : List (Bytes × StudyRecord)
  deriving Repr, DecidableEq

/-- `StudyRegistered` event payload. -/
inductive SEvent where
  | StudyRegistered (dataset_hash : Bytes) (contributor : Address)
      (timestamp : Nat)
  deriving Repr, DecidableEq

/-- `StudyRegistry::dataset_exists`. -/
def dataset_exists (s : RegistryState) (dataset_hash : Bytes) : Bool :=
  (assocGet dataset_hash s.studies).isSome

/-- `StudyRegistry::verify_zk_proof_mock`. -/
def verify_zk_proof_mock (zk_proof : Bytes) (dataset_hash : Bytes)
    (attestation : Bytes) : Bool :=
  decide (zk_proof.length > 0) && decide (dataset_hash.length = 32) &&
    decide (attestation.length > 0)

/-- `StudyRegistry::register_study`.  `now` is the ledger timestamp. -/
def register_study (s : RegistryState) (dataset_hash : Bytes)
    (attestation : Bytes) (zk_proof : Bytes) (contributor : Address)
    (now : Nat) : Except SError (RegistryState × List SEvent) :=
  if dataset_exists s dataset_hash then .error .DuplicateStudy
  else if attestation.length = 0 then .error .InvalidAttestation
  else if zk_proof.length = 0 then .error .InvalidZKProof
  else if verify_zk_proof_mock zk_proof dataset_hash attestation = false then
    .error .InvalidZKProof
  else
    let study_record : StudyRecord := ⟨dataset_hash, contributor, now⟩
    .ok (⟨assocSet dataset_hash study_record s.studies⟩,
      [SEvent.StudyRegistered dataset_hash contributor now])

/-- Committed registry state: reverted to `s` when the call failed. -/
def register_study_commit (s : RegistryState) (dataset_hash : Bytes)
    (attestation : Bytes) (zk_proof : Bytes) (contributor : Address)
    (now : Nat) : RegistryState :=
  match register_study s dataset_hash attestation zk_proof contributor now with
  | .ok r => r.1
  | .error _ => s

/-- `StudyRegistry::get_study`. -/
def get_study (s : RegistryState) (dataset_hash : Bytes) :
    Except SError StudyRecord :=
  match assocGet dataset_hash s.studies with
  | some r => .ok r
  | none => .error .StudyNotFound

end StudyRegistry

namespace RevenueSplitter

/-- `Error` enum of the revenue splitter contract (`NotInit` embeds the
source's first variant, whose name we shorten). -/
inductive RError where
  | NotInit
  | InvalidContributors
  | InvalidAmount
  | TransferFailed
  | TreasuryNotSet
  | TokenNotSet
  deriving Repr, DecidableEq

/-- Instance storage / configuration of the revenue splitter. -/
structure SplitterState where
  usdc_token : Option Address
  treasury : Option Address
  deriving Repr, DecidableEq

/-- One executed `token::Client::transfer(src, dst, amount)`. -/
structure Transfer where
  src : Address
  dst : Address
  amount : Int
  deriving Repr, DecidableEq

/-- Events published by the revenue splitter. -/
inductive REvent where
  | ContributorRewarded (dataset_id : Bytes) (contributor : Address)
      (user_amount : Int) (platform_amount : Int)
  | DatasetPayoutCompleted (dataset_id : Bytes) (num_contributors : Nat)
      (total_user_amount : Int) (total_platform_amount : Int)
  deriving Repr, DecidableEq

/-- `BASE_REWARD = 10_0000000` : 10 USDC in 7-decimal fixed point. -/
def BASE_REWARD : Int := 100000000

/-- `CONTRIBUTOR_PERCENT = 85`. -/
def CONTRIBUTOR_PERCENT : Int := 85

/-- `PLATFORM_PERCENT = 15`. -/
def PLATFORM_PERCENT : Int := 15

/-- `user_amount = (BASE_REWARD * CONTRIBUTOR_PERCENT) / 100`. -/
def user_amount : Int := BASE_REWARD * CONTRIBUTOR_PERCENT / 100

/-- `platform_amount = BASE_REWARD - user_amount`. -/
def platform_amount : Int := BASE_REWARD - user_amount

/-- The per-contributor loop of `payout_for_dataset` (source step 5/6): two
transfers and one `ContributorRewarded` event per contributor, in list
order, accumulating the totals; a failed transfer traps, aborting the call
with nothing recorded. -/
def processContributors (transferOk : Address → Address → Int → Bool)
    (contract treasury : Address) (dataset_id : Bytes) :
    List Address → Except RError (Int × Int × List Transfer × List REvent)
  | [] => .ok (0, 0, [], [])
  | contributor :: rest =>
    if transferOk contract contributor user_amount then
      if transferOk contract treasury platform_amount then
        match processContributors transferOk contract treasury dataset_id rest with
        | .error e => .error e
        | .ok (tu, tp, ts, es) =>
          .ok (tu + user_amount, tp + platform_amount,
            ⟨contract, contributor, user_amount⟩ ::
              ⟨contract, treasury, platform_amount⟩ :: ts,
            REvent.ContributorRewarded dataset_id contributor user_amount
              platform_amount :: es)
      else .error .TransferFailed
    else .error .TransferFailed

/-- `RevenueSplitter::payout_for_dataset`.  `contract` is the splitter's own
address (`env.current_contract_address()`), the transfer source.  On success
it returns the executed transfers and the published events. -/
def payout_for_dataset (st : SplitterState)
    (transferOk : Address → Address → Int → Bool) (contract : Address)
    (dataset_id : Bytes) (contributors : List Address) :
    Except RError (List Transfer × List REvent) :=
  if contributors.length = 0 then .error .InvalidContributors
  else
    match st.usdc_token with
    | none => .error .TokenNotSet
    | some _usdc =>
      match st.treasury with
      | none => .error .TreasuryNotSet
      | some treasury =>
        if user_amount ≤ 0 ∨ platform_amount ≤ 0 then .error .InvalidAmount
        else
          match processContributors transferOk contract treasury dataset_id
              contributors with
          | .error e => .error e
          | .ok (total_user_amount, total_platform_amount, ts, es) =>
            .ok (ts, es ++
              [REvent.DatasetPayoutCompleted dataset_id contributors.length
                total_user_amount total_platform_amount])

/-- Transfers observable from a payout outcome: none when the call failed. -/
def payout_transfers (r : Except RError (List Transfer × List REvent)) :
    List Transfer :=
  match r with
  | .ok p => p.1
  | .error _ => []

/-- Events observable from a payout outcome: none when the call failed. -/
def payout_events (r : Except RError (List Transfer × List REvent)) :
    List REvent :=
  match r with
  | .ok p => p.2
  | .error _ => []

end RevenueSplitter

namespace DatasetMarketplace

open StudyRegistry RevenueSplitter

/-- `Dataset` from `dataset_marketplace/src/lib.rs`. -/
structure Dataset where
  dataset_id : Bytes
  study_ids : List Bytes
  price_usdc : Int
  deriving Repr, DecidableEq

/-- `PurchaseRecord` from `dataset_marketplace/src/lib.rs`. -/
structure PurchaseRecord where
  buyer : Address
  dataset_id : Bytes
  tx_hash : Bytes
  deriving Repr, DecidableEq

/-- `Error` enum of the marketplace contract. -/
inductive MError where
  | DatasetNotFound
  | DatasetAlreadyExists
  | InvalidPrice
  | PaymentFailed
  | InvalidStudyIds
  | RevenueSplitterNotSet
  | StudyRegistryNotSet
  | ContributorLookupFailed
  deriving Repr, DecidableEq

/-- Instance storage of the marketplace: the `DATASET`, `PURCHASE`,
`REV_SPLIT` and `STUDY_REG` keys. -/
structure MarketState where
  datasets : List (Bytes × Dataset)
  purchases : List ((Bytes × Address) × PurchaseRecord)
  revenue_splitter : Option Address
  study_registry : Option Address
  deriving Repr, DecidableEq

/-- Events published by the marketplace. -/
inductive MEvent where
  | DatasetRegistered (dataset_id : Bytes) (price_usdc : Int)
      (study_count : Nat)
  | DatasetPurchased (buyer : Address) (dataset_id : Bytes)
      (price_usdc : Int)
  deriving Repr, DecidableEq

/-- `DatasetMarketplace::register_dataset`. -/
def register_dataset (s : MarketState) (dataset_id : Bytes)
    (study_ids : List Bytes) (price_usdc : Int) :
    Except MError (MarketState × List MEvent) :=
  if dataset_id.length = 0 then .error .DatasetNotFound
  else if study_ids.length = 0 then .error .InvalidStudyIds
  else if price_usdc ≤ 0 then .error .InvalidPrice
  else if (assocGet dataset_id s.datasets).isSome then
    .error .DatasetAlreadyExists
  else
    let dataset : Dataset := ⟨dataset_id, study_ids, price_usdc⟩
    .ok ({ s with datasets := assocSet dataset_id dataset s.datasets },
      [MEvent.DatasetRegistered dataset_id price_usdc study_ids.length])

/-- Committed marketplace state after `register_dataset` (reverted on
failure). -/
def register_dataset_commit (s : MarketState) (dataset_id : Bytes)
    (study_ids : List Bytes) (price_usdc : Int) : MarketState :=
  match register_dataset s dataset_id study_ids price_usdc with
  | .ok r => r.1
  | .error _ => s

/-- `DatasetMarketplace::get_dataset`. -/
def get_dataset (s : MarketState) (dataset_id : Bytes) :
    Except MError Dataset :=
  match assocGet dataset_id s.datasets with
  | some d => .ok d
  | none => .error .DatasetNotFound

/-- `DatasetMarketplace::get_purchase`. -/
def get_purchase (s : MarketState) (dataset_id : Bytes) (buyer : Address) :
    Except MError PurchaseRecord :=
  match assocGet (dataset_id, buyer) s.purchases with
  | some p => .ok p
  | none => .error .DatasetNotFound

/-- `DatasetMarketplace::verify_payment_mock`: just checks the amount is
positive. -/
def verify_payment_mock (_buyer : Address) (amount : Int) : Bool :=
  decide (0 < amount)

/-- Big-endian bytes of a `u64` (`timestamp.to_be_bytes()`). -/
def u64_be_bytes (t : Nat) : Bytes :=
  (List.range 8).map (fun i => t / 2 ^ (8 * (7 - i)) % 256)

/-- `DatasetMarketplace::generate_tx_hash`: dataset id ++ big-endian
timestamp ++ the literal bytes `b"buyer"`. -/
def generate_tx_hash (dataset_id : Bytes) (_buyer : Address)
    (timestamp : Nat) : Bytes :=
  dataset_id ++ u64_be_bytes timestamp ++ [98, 117, 121, 101, 114]

/-- The `BytesN::<32>::from_array` reconstruction in
`get_contributors_from_studies`: byte `i` is `study_id.get(i).unwrap_or(0)`. -/
def bytesToHash32 (b : Bytes) : Bytes :=
  (List.range 32).map (fun i => b.getD i 0)

/-- The study-id loop of `get_contributors_from_studies`: skip ids whose
length is not 32; look the rest up in the study registry via `get_study`;
skip unresolved ids; collect contributors in order. -/
def resolveContributors (reg : RegistryState) : List Bytes → List Address
  | [] => []
  | study_id :: rest =>
    if study_id.length ≠ 32 then resolveContributors reg rest
    else
      match get_study reg (bytesToHash32 study_id) with
      | .ok record => record.contributor :: resolveContributors reg rest
      | .error _ => resolveContributors reg rest

/-- `DatasetMarketplace::get_contributors_from_studies`: fails
`StudyRegistryNotSet` when the registry link is unset, otherwise resolves
the study ids against the registry state `reg`. -/
def get_contributors_from_studies (s : MarketState) (reg : RegistryState)
    (study_ids : List Bytes) : Except MError (List Address) :=
  match s.study_registry with
  | none => .error .StudyRegistryNotSet
  | some _addr => .ok (resolveContributors reg study_ids)

/-- Outcome classification of `purchase_dataset`: a typed marketplace error,
or a trap raised by the failing `payout_for_dataset` sub-call (which the
host turns into a revert of the whole purchase transaction). -/
inductive PFail where
  | merr (e : MError)
  | payoutTrap (e : RError)
  deriving Repr, DecidableEq

/-- Source step 4 of `purchase_dataset`: the state after storing the
`PurchaseRecord` under key `(dataset_id, buyer)`. -/
def purchase_record_state (ms : MarketState) (dataset_id : Bytes)
    (buyer : Address) (now : Nat) : MarketState :=
  { ms with purchases := (assocSet (dataset_id, buyer)
      ⟨buyer, dataset_id, generate_tx_hash dataset_id buyer now⟩
      ms.purchases) }

/-- `DatasetMarketplace::purchase_dataset`.  `reg` and `sp` are the states
of the linked study-registry and revenue-splitter contracts, `transferOk`
the external asset ledger, `splitterAddr` the splitter contract's own
address, `now` the ledger timestamp.  On success: the new marketplace
state, the marketplace events, the transfers and events of the payout
sub-call, and the returned `Dataset`. -/
def purchase_dataset (ms : MarketState) (reg : RegistryState)
    (sp : SplitterState) (transferOk : Address → Address → Int → Bool)
    (splitterAddr : Address) (dataset_id : Bytes) (buyer : Address)
    (now : Nat) :
    Except PFail
      (MarketState × List MEvent × List Transfer × List REvent × Dataset) :=
  match assocGet dataset_id ms.datasets with
  | none => .error (.merr .DatasetNotFound)
  | some dataset =>
    if verify_payment_mock buyer dataset.price_usdc = false then
      .error (.merr .PaymentFailed)
    else
      let ms1 : MarketState := purchase_record_state ms dataset_id buyer now
      match get_contributors_from_studies ms1 reg dataset.study_ids with
      | .error e => .error (.merr e)
      | .ok contributors =>
        if 0 < contributors.length then
          match ms1.revenue_splitter with
          | none => .error (.merr .RevenueSplitterNotSet)
          | some _rs =>
            match payout_for_dataset sp transferOk splitterAddr dataset_id
                contributors with
            | .error e => .error (.payoutTrap e)
            | .ok (ts, rvs) =>
              .ok (ms1,
                [MEvent.DatasetPurchased buyer dataset_id dataset.price_usdc],
                ts, rvs, dataset)
        else
          .ok (ms1,
            [MEvent.DatasetPurchased buyer dataset_id dataset.price_usdc],
            [], [], dataset)

/-- Committed marketplace state after `purchase_dataset` (reverted on any
failure, including a payout trap). -/
def purchase_commit (ms : MarketState) (reg : RegistryState)
    (sp : SplitterState) (transferOk : Address → Address → Int → Bool)
    (splitterAddr : Address) (dataset_id : Bytes) (buyer : Address)
    (now : Nat) : MarketState :=
  match purchase_dataset ms reg sp transferOk splitterAddr dataset_id buyer
      now with
  | .ok r => r.1
  | .error _ => ms

/-- Marketplace events committed by `purchase_dataset` (none on failure). -/
def purchase_mEvents (ms : MarketState) (reg : RegistryState)
    (sp : SplitterState) (transferOk : Address → Address → Int → Bool)
    (splitterAddr : Address) (dataset_id : Bytes) (buyer : Address)
    (now : Nat) : List MEvent :=
  match purchase_dataset ms reg sp transferOk splitterAddr dataset_id buyer
      now with
  | .ok r => r.2.1
  | .error _ => []

/-- `true` iff a purchase outcome is a success. -/
def purchaseOk
    (r : Except PFail
      (MarketState × List MEvent × List Transfer × List REvent × Dataset)) :
    Bool :=
  match r with
  | .ok _ => true
  | .error _ => false

end DatasetMarketplace

/-! ## Supporting lemmas -/

namespace DatasetMarketplace

open StudyRegistry RevenueSplitter

theorem bytesToHash32_eq_self (b : Bytes) (h : b.length = 32) :
    bytesToHash32 b = b := by
  apply List.ext_getElem
  · simp [bytesToHash32, h]
  · intro i h1 h2
    simp only [bytesToHash32, List.getElem_map, List.getElem_range]
    exact List.getD_eq_getElem b 0 h2

theorem resolveContributors_eq_filterMap (reg : RegistryState)
    (study_ids : List Bytes) :
    resolveContributors reg study_ids =
      study_ids.filterMap (fun sid =>
        if sid.length = 32 then
          (assocGet sid reg.studies).map StudyRecord.contributor
        else none) := by
  induction study_ids with
  | nil => rfl
  | cons sid rest ih =>
    by_cases h32 : sid.length = 32
    · rw [resolveContributors, if_neg (by simp [h32])]
      rw [bytesToHash32_eq_self sid h32]
      rw [List.filterMap_cons, if_pos h32]
      cases hg : assocGet sid reg.studies with
      | none => simp [get_study, hg, ih]
      | some record => simp [get_study, hg, ih]
    · rw [resolveContributors, if_pos (by simp [h32])]
      rw [List.filterMap_cons, if_neg h32]
      exact ih

theorem resolveContributors_length_le (reg : RegistryState)
    (study_ids : List Bytes) :
    (resolveContributors reg study_ids).length ≤ study_ids.length := by
  rw [resolveContributors_eq_filterMap]
  exact List.length_filterMap_le _ _

theorem resolveContributors_eq_nil (reg : RegistryState)
    (study_ids : List Bytes)
    (h : ∀ sid ∈ study_ids, sid.length = 32 →
      assocGet sid reg.studies = none) :
    resolveContributors reg study_ids = [] := by
  rw [resolveContributors_eq_filterMap]
  rw [List.filterMap_eq_nil_iff]
  intro sid hmem
  by_cases h32 : sid.length = 32
  · rw [if_pos h32, h sid hmem h32]
    rfl
  · rw [if_neg h32]

end DatasetMarketplace

namespace RevenueSplitter

theorem processContributors_ok_totals (transferOk : Address → Address → Int → Bool)
    (contract treasury : Address) (dataset_id : Bytes)
    (contributors : List Address) (tu tp : Int) (ts : List Transfer)
    (es : List REvent)
    (h : processContributors transferOk contract treasury dataset_id
      contributors = .ok (tu, tp, ts, es)) :
    tu = (contributors.length : Int) * user_amount ∧
      tp = (contributors.length : Int) * platform_amount := by
  induction contributors generalizing tu tp ts es with
  | nil =>
    rw [processContributors] at h
    obtain ⟨h1, h2, _, _⟩ := by simpa using h
    simp [← h1, ← h2]
  | cons c rest ih =>
    rw [processContributors] at h
    by_cases hu : transferOk contract c user_amount
    · rw [if_pos hu] at h
      by_cases hpf : transferOk contract treasury platform_amount
      · rw [if_pos hpf] at h
        cases hrec : processContributors transferOk contract treasury
            dataset_id rest with
        | error e => rw [hrec] at h; exact absurd h (by simp)
        | ok q =>
          obtain ⟨tu0, tp0, ts0, es0⟩ := q
          rw [hrec] at h
          obtain ⟨h1, h2, _, _⟩ := by simpa using h
          obtain ⟨g1, g2⟩ := ih tu0 tp0 ts0 es0 hrec
          constructor
          · rw [← h1, g1]
            simp only [List.length_cons]
            push_cast
            ring
          · rw [← h2, g2]
            simp only [List.length_cons]
            push_cast
            ring
      · rw [if_neg hpf] at h
        exact absurd h (by simp)
    · rw [if_neg hu] at h
      exact absurd h (by simp)

theorem payout_ok_last_event (st : SplitterState)
    (transferOk : Address → Address → Int → Bool) (contract : Address)
    (dataset_id : Bytes) (contributors : List Address) (ts : List Transfer)
    (evs : List REvent)
    (h : payout_for_dataset st transferOk contract dataset_id contributors =
      .ok (ts, evs)) :
    evs.getLast? = some (REvent.DatasetPayoutCompleted dataset_id
      contributors.length ((contributors.length : Int) * user_amount)
      ((contributors.length : Int) * platform_amount)) := by
  rw [payout_for_dataset] at h
  by_cases hne : contributors.length = 0
  · rw [if_pos hne] at h
    exact absurd h (by simp)
  · rw [if_neg hne] at h
    cases htok : st.usdc_token with
    | none => rw [htok] at h; exact absurd h (by simp)
    | some usdc =>
      rw [htok] at h
      dsimp only at h
      cases htr : st.treasury with
      | none => rw [htr] at h; exact absurd h (by simp)
      | some treasury =>
        rw [htr] at h
        dsimp only at h
        rw [if_neg (by norm_num [user_amount, platform_amount, BASE_REWARD,
          CONTRIBUTOR_PERCENT])] at h
        cases hrec : processContributors transferOk contract treasury
            dataset_id contributors with
        | error e => rw [hrec] at h; exact absurd h (by simp)
        | ok q =>
          obtain ⟨tu, tp, ts0, es0⟩ := q
          rw [hrec] at h
          obtain ⟨_, h2⟩ := by simpa using h
          obtain ⟨g1, g2⟩ := processContributors_ok_totals transferOk contract
            treasury dataset_id contributors tu tp ts0 es0 hrec
          rw [← h2, List.getLast?_append, g1, g2]
          rfl

end RevenueSplitter

namespace DatasetMarketplace

open StudyRegistry RevenueSplitter

theorem get_contributors_ok (s : MarketState) (reg : RegistryState)
    (study_ids : List Bytes) (contributors : List Address)
    (h : get_contributors_from_studies s reg study_ids = .ok contributors) :
    contributors = resolveContributors reg study_ids := by
  rw [get_contributors_from_studies] at h
  cases hs : s.study_registry with
  | none => rw [hs] at h; exact absurd h (by simp)
  | some a =>
    rw [hs] at h
    exact ((by simpa using h : resolveContributors reg study_ids =
      contributors)).symm

theorem get_contributors_error (s : MarketState) (reg : RegistryState)
    (study_ids : List Bytes) (e : MError)
    (h : get_contributors_from_studies s reg study_ids = .error e) :
    e = .StudyRegistryNotSet ∧ s.study_registry = none := by
  rw [get_contributors_from_studies] at h
  cases hs : s.study_registry with
  | none =>
    rw [hs] at h
    exact ⟨((by simpa using h : MError.StudyRegistryNotSet = e)).symm, rfl⟩
  | some a => rw [hs] at h; exact absurd h (by simp)

theorem purchase_record_state_study_registry (ms : MarketState)
    (dataset_id : Bytes) (buyer : Address) (now : Nat) :
    (purchase_record_state ms dataset_id buyer now).study_registry =
      ms.study_registry := rfl

theorem purchase_record_state_revenue_splitter (ms : MarketState)
    (dataset_id : Bytes) (buyer : Address) (now : Nat) :
    (purchase_record_state ms dataset_id buyer now).revenue_splitter =
      ms.revenue_splitter := rfl

/-- A concrete 32-byte study hash used by concrete instances below. -/
def exHash : Bytes := List.replicate 32 1

end DatasetMarketplace

/-! ## Claims -/

namespace Claims

open StudyRegistry RevenueSplitter DatasetMarketplace

/-- Claim C2: for every non-empty contributor list accepted by
`payout_for_dataset`, `user_amount = floor(10_0000000 * 85 / 100) =
8_5000000`, `platform_amount = 10_0000000 - user_amount = 1_5000000`, their
sum is exactly the base reward `10_0000000`, and for `N` contributors the
emitted `DatasetPayoutCompleted` event carries
`total_user_amount = N * 8_5000000` and
`total_platform_amount = N * 1_5000000`. -/
theorem C2_payout_split_exact (st : SplitterState)
    (transferOk : Address → Address → Int → Bool) (contract : Address)
    (dataset_id : Bytes) (contributors : List Address) (ts : List Transfer)
    (evs : List REvent)
    (h : payout_for_dataset st transferOk contract dataset_id contributors =
      .ok (ts, evs)) :
    user_amount = 85000000 ∧ platform_amount = 15000000 ∧
      user_amount + platform_amount = BASE_REWARD ∧
      evs.getLast? = some (REvent.DatasetPayoutCompleted dataset_id
        contributors.length ((contributors.length : Int) * 85000000)
        ((contributors.length : Int) * 15000000)) := by
  have hu : user_amount = 85000000 := by decide
  have hp : platform_amount = 15000000 := by decide
  refine ⟨hu, hp, by decide, ?_⟩
  have := payout_ok_last_event st transferOk contract dataset_id contributors
    ts evs h
  rw [hu, hp] at this
  exact this

/-- Witness for C2 at a concrete two-contributor payout. -/
theorem C2_payout_split_exact_witness :
    user_amount = 85000000 ∧ platform_amount = 15000000 ∧
      user_amount + platform_amount = BASE_REWARD ∧
      ([REvent.ContributorRewarded [7] 3 85000000 15000000,
        REvent.ContributorRewarded [7] 4 85000000 15000000,
        REvent.DatasetPayoutCompleted [7] 2 170000000 30000000] :
          List REvent).getLast? =
        some (REvent.DatasetPayoutCompleted [7] 2
          (((2 : Nat) : Int) * 85000000) (((2 : Nat) : Int) * 15000000)) :=
  C2_payout_split_exact ⟨some 1, some 2⟩ (fun _ _ _ => true) 9 [7] [3, 4]
    [⟨9, 3, 85000000⟩, ⟨9, 2, 15000000⟩, ⟨9, 4, 85000000⟩,
      ⟨9, 2, 15000000⟩]
    [REvent.ContributorRewarded [7] 3 85000000 15000000,
      REvent.ContributorRewarded [7] 4 85000000 15000000,
      REvent.DatasetPayoutCompleted [7] 2 170000000 30000000]
    rfl

/-- Claim C6: `payout_for_dataset` on an empty contributor list fails
`InvalidContributors` whatever the configuration (so before any
configuration is read), with zero transfers and zero events; on a non-empty
list a missing token reference fails `TokenNotSet`, and a present token
reference with a missing treasury fails `TreasuryNotSet`. -/
theorem C6_payout_guards (st : SplitterState)
    (transferOk : Address → Address → Int → Bool) (contract : Address)
    (dataset_id : Bytes) (contributors : List Address) :
    payout_for_dataset st transferOk contract dataset_id [] =
        .error .InvalidContributors ∧
      payout_transfers
        (payout_for_dataset st transferOk contract dataset_id []) = [] ∧
      payout_events
        (payout_for_dataset st transferOk contract dataset_id []) = [] ∧
      (contributors ≠ [] → st.usdc_token = none →
        payout_for_dataset st transferOk contract dataset_id contributors =
          .error .TokenNotSet) ∧
      (∀ u, contributors ≠ [] → st.usdc_token = some u →
        st.treasury = none →
        payout_for_dataset st transferOk contract dataset_id contributors =
          .error .TreasuryNotSet) := by
  refine ⟨rfl, rfl, rfl, ?_, ?_⟩
  · intro hne htok
    rw [payout_for_dataset, if_neg (by simpa using hne), htok]
  · intro u hne htok htr
    rw [payout_for_dataset, if_neg (by simpa using hne), htok]
    dsimp only
    rw [htr]

/-- Witness for C6 at concrete unset configurations. -/
theorem C6_payout_guards_witness :
    payout_for_dataset ⟨none, none⟩ (fun _ _ _ => true) 9 [7] [] =
        .error .InvalidContributors ∧
      payout_for_dataset ⟨none, none⟩ (fun _ _ _ => true) 9 [7] [3] =
        .error .TokenNotSet ∧
      payout_for_dataset ⟨some 1, none⟩ (fun _ _ _ => true) 9 [7] [3] =
        .error .TreasuryNotSet :=
  ⟨(C6_payout_guards ⟨none, none⟩ (fun _ _ _ => true) 9 [7] [3]).1,
    (C6_payout_guards ⟨none, none⟩ (fun _ _ _ => true) 9 [7] [3]).2.2.2.1
      (by decide) rfl,
    (C6_payout_guards ⟨some 1, none⟩ (fun _ _ _ => true) 9 [7] [3]).2.2.2.2 1
      (by decide) rfl rfl⟩

/-- Claim C4 counterexample: with an empty dataset id, `register_dataset`
fails `DatasetNotFound`, an error outside the claimed set
`{DatasetAlreadyExists, InvalidStudyIds, InvalidPrice}` — in particular an
empty study list together with an empty id does not fail
`InvalidStudyIds`. -/
theorem C4_counterexample :
    register_dataset ⟨[], [], none, none⟩ [] [] 1 =
        .error .DatasetNotFound ∧
      MError.DatasetNotFound ∉ [MError.DatasetAlreadyExists,
        MError.InvalidStudyIds, MError.InvalidPrice] ∧
      register_dataset ⟨[], [], none, none⟩ [] [] 1 ≠
        .error .InvalidStudyIds := by
  refine ⟨rfl, by decide, by decide⟩

/-- Claim C4 (amended): `register_dataset` validates non-empty id, non-empty
study list, positive price and id uniqueness, in that order, failing
`DatasetNotFound` on an empty id, `InvalidStudyIds` on an empty study list
(when the id is non-empty), `InvalidPrice` on a non-positive price, and
`DatasetAlreadyExists` on a duplicate id; on success it stores the Dataset
and emits `DatasetRegistered` with the dataset id, price and study count;
an empty study list leaves the state unchanged (no Dataset stored). -/
theorem C4_register_dataset_spec (s : MarketState) (dataset_id : Bytes)
    (study_ids : List Bytes) (price_usdc : Int) :
    (dataset_id = [] →
      register_dataset s dataset_id study_ids price_usdc =
        .error .DatasetNotFound) ∧
    (dataset_id ≠ [] → study_ids = [] →
      register_dataset s dataset_id study_ids price_usdc =
        .error .InvalidStudyIds) ∧
    (dataset_id ≠ [] → study_ids ≠ [] → price_usdc ≤ 0 →
      register_dataset s dataset_id study_ids price_usdc =
        .error .InvalidPrice) ∧
    (dataset_id ≠ [] → study_ids ≠ [] → 0 < price_usdc →
      (assocGet dataset_id s.datasets).isSome = true →
      register_dataset s dataset_id study_ids price_usdc =
        .error .DatasetAlreadyExists) ∧
    (dataset_id ≠ [] → study_ids ≠ [] → 0 < price_usdc →
      assocGet dataset_id s.datasets = none →
      register_dataset s dataset_id study_ids price_usdc =
        .ok ({ s with datasets := (assocSet dataset_id
                ⟨dataset_id, study_ids, price_usdc⟩ s.datasets) },
          [MEvent.DatasetRegistered dataset_id price_usdc
            study_ids.length])) ∧
    (study_ids = [] →
      register_dataset_commit s dataset_id study_ids price_usdc = s) := by
  refine ⟨?_, ?_, ?_, ?_, ?_, ?_⟩
  · intro h1
    rw [register_dataset, if_pos (by simp [h1])]
  · intro h1 h2
    rw [register_dataset, if_neg (by simpa using h1),
      if_pos (by simp [h2])]
  · intro h1 h2 h3
    rw [register_dataset, if_neg (by simpa using h1),
      if_neg (by simpa using h2), if_pos h3]
  · intro h1 h2 h3 h4
    rw [register_dataset, if_neg (by simpa using h1),
      if_neg (by simpa using h2), if_neg (not_le.mpr h3), if_pos h4]
  · intro h1 h2 h3 h4
    rw [register_dataset, if_neg (by simpa using h1),
      if_neg (by simpa using h2), if_neg (not_le.mpr h3),
      if_neg (by simp [h4])]
  · intro h2
    rw [register_dataset_commit]
    by_cases h1 : dataset_id = []
    · rw [register_dataset, if_pos (by simp [h1])]
    · rw [register_dataset, if_neg (by simpa using h1),
        if_pos (by simp [h2])]

/-- Witness for C4 (amended) at concrete inputs covering every branch. -/
theorem C4_register_dataset_spec_witness :
    register_dataset ⟨[], [], none, none⟩ [] [[2]] 1 =
        .error .DatasetNotFound ∧
      register_dataset ⟨[], [], none, none⟩ [1] [] 1 =
        .error .InvalidStudyIds ∧
      register_dataset ⟨[], [], none, none⟩ [1] [[2]] 0 =
        .error .InvalidPrice ∧
      register_dataset ⟨[([1], ⟨[1], [[2]], 5⟩)], [], none, none⟩ [1]
          [[2]] 1 = .error .DatasetAlreadyExists ∧
      register_dataset ⟨[], [], none, none⟩ [1] [[2]] 1 =
        .ok (⟨[([1], ⟨[1], [[2]], 1⟩)], [], none, none⟩,
          [MEvent.DatasetRegistered [1] 1 1]) ∧
      register_dataset_commit ⟨[], [], none, none⟩ [1] [] 1 =
        ⟨[], [], none, none⟩ :=
  ⟨(C4_register_dataset_spec ⟨[], [], none, none⟩ [] [[2]] 1).1 rfl,
    (C4_register_dataset_spec ⟨[], [], none, none⟩ [1] [] 1).2.1
      (by decide) rfl,
    (C4_register_dataset_spec ⟨[], [], none, none⟩ [1] [[2]] 0).2.2.1
      (by decide) (by decide) (by decide),
    (C4_register_dataset_spec ⟨[([1], ⟨[1], [[2]], 5⟩)], [], none, none⟩
        [1] [[2]] 1).2.2.2.1 (by decide) (by decide) (by decide) rfl,
    (C4_register_dataset_spec ⟨[], [], none, none⟩ [1] [[2]] 1).2.2.2.2.1
      (by decide) (by decide) (by decide) rfl,
    (C4_register_dataset_spec ⟨[], [], none, none⟩ [1] [] 1).2.2.2.2.2 rfl⟩

/-- A concrete marketplace state holding dataset `[1]`, used by the C7
declarations. -/
def exC7_market : MarketState := ⟨[([1], ⟨[1], [[2]], 5⟩)], [], none, none⟩

/-- Claim C7 counterexample: a second `register_dataset` on the already
registered id `[1]` with an empty study list fails `InvalidStudyIds`, not
`DatasetAlreadyExists`, so the error is not independent of the other
parameters. -/
theorem C7_counterexample :
    (assocGet [1] exC7_market.datasets).isSome = true ∧
      register_dataset exC7_market [1] [] 1 = .error .InvalidStudyIds ∧
      MError.InvalidStudyIds ≠ MError.DatasetAlreadyExists := by
  refine ⟨rfl, rfl, by decide⟩

/-- Claim C7 (amended): a second registration of an existing key always
fails and leaves the stored record unchanged: `register_study` fails
`DuplicateStudy` regardless of the other parameters; `register_dataset` on
an existing id never succeeds, fails `DatasetAlreadyExists` whenever the
other parameters pass input validation (with the corresponding validation
error otherwise), and the originally stored record is unchanged in every
case. -/
theorem C7_duplicate_keys (rs : RegistryState) (ms : MarketState)
    (dataset_hash attestation zk_proof : Bytes) (contributor : Address)
    (now : Nat) (dataset_id : Bytes) (study_ids : List Bytes)
    (price_usdc : Int) :
    (dataset_exists rs dataset_hash = true →
      register_study rs dataset_hash attestation zk_proof contributor now =
          .error .DuplicateStudy ∧
        register_study_commit rs dataset_hash attestation zk_proof
          contributor now = rs) ∧
    (∀ d, assocGet dataset_id ms.datasets = some d →
      (∀ r, register_dataset ms dataset_id study_ids price_usdc ≠ .ok r) ∧
        register_dataset_commit ms dataset_id study_ids price_usdc = ms ∧
        assocGet dataset_id (register_dataset_commit ms dataset_id study_ids
          price_usdc).datasets = some d ∧
        (dataset_id ≠ [] → study_ids ≠ [] → 0 < price_usdc →
          register_dataset ms dataset_id study_ids price_usdc =
            .error .DatasetAlreadyExists)) := by
  constructor
  · intro hex
    constructor
    · rw [register_study, if_pos hex]
    · rw [register_study_commit, register_study, if_pos hex]
  · intro d hd
    have hsome : (assocGet dataset_id ms.datasets).isSome = true := by
      simp [hd]
    have hner : ∀ r, register_dataset ms dataset_id study_ids price_usdc ≠
        .ok r := by
      intro r
      rw [register_dataset]
      by_cases h1 : dataset_id.length = 0
      · rw [if_pos h1]; simp
      · rw [if_neg h1]
        by_cases h2 : study_ids.length = 0
        · rw [if_pos h2]; simp
        · rw [if_neg h2]
          by_cases h3 : price_usdc ≤ 0
          · rw [if_pos h3]; simp
          · rw [if_neg h3, if_pos hsome]; simp
    have hcommit : register_dataset_commit ms dataset_id study_ids
        price_usdc = ms := by
      rw [register_dataset_commit]
      cases heq : register_dataset ms dataset_id study_ids price_usdc with
      | ok r => exact absurd heq (hner r)
      | error e => rfl
    refine ⟨hner, hcommit, by rw [hcommit]; exact hd, ?_⟩
    intro h1 h2 h3
    rw [register_dataset, if_neg (by simpa using h1),
      if_neg (by simpa using h2), if_neg (not_le.mpr h3), if_pos hsome]

/-- A concrete registry state holding study `exHash`, used by witnesses. -/
def exRegistry : RegistryState := ⟨[(exHash, ⟨exHash, 77, 100⟩)]⟩

/-- Witness for C7 (amended) at concrete duplicate registrations. -/
theorem C7_duplicate_keys_witness :
    (register_study exRegistry exHash [0] [0] 5 9 =
        .error .DuplicateStudy ∧
      register_study_commit exRegistry exHash [0] [0] 5 9 = exRegistry) ∧
    register_dataset_commit exC7_market [1] [[3]] 2 = exC7_market ∧
    assocGet [1] (register_dataset_commit exC7_market [1] [[3]] 2).datasets =
      some ⟨[1], [[2]], 5⟩ ∧
    register_dataset exC7_market [1] [[3]] 2 =
      .error .DatasetAlreadyExists :=
  ⟨(C7_duplicate_keys exRegistry exC7_market exHash [0] [0] 5 9 [1] [[3]]
      2).1 rfl,
    ((C7_duplicate_keys exRegistry exC7_market exHash [0] [0] 5 9 [1] [[3]]
      2).2 ⟨[1], [[2]], 5⟩ rfl).2.1,
    ((C7_duplicate_keys exRegistry exC7_market exHash [0] [0] 5 9 [1] [[3]]
      2).2 ⟨[1], [[2]], 5⟩ rfl).2.2.1,
    ((C7_duplicate_keys exRegistry exC7_market exHash [0] [0] 5 9 [1] [[3]]
      2).2 ⟨[1], [[2]], 5⟩ rfl).2.2.2 (by decide) (by decide) (by decide)⟩

/-- Claim C8: read-after-write round trips — immediately after a successful
`register_study(hash, attestation, proof, contributor)`, `get_study(hash)`
returns the stored `StudyRecord` with that hash and contributor, and
immediately after a successful `register_dataset(id, study_ids, price)`,
`get_dataset(id)` returns the stored `Dataset` with those study ids and
that price. -/
theorem C8_read_after_write (rs : RegistryState) (ms : MarketState)
    (dataset_hash attestation zk_proof : Bytes) (contributor : Address)
    (now : Nat) (dataset_id : Bytes) (study_ids : List Bytes)
    (price_usdc : Int) :
    (∀ rs2 evs, register_study rs dataset_hash attestation zk_proof
        contributor now = .ok (rs2, evs) →
      get_study rs2 dataset_hash = .ok ⟨dataset_hash, contributor, now⟩) ∧
    (∀ ms2 evs, register_dataset ms dataset_id study_ids price_usdc =
        .ok (ms2, evs) →
      get_dataset ms2 dataset_id = .ok ⟨dataset_id, study_ids,
        price_usdc⟩) := by
  constructor
  · intro rs2 evs h
    rw [register_study] at h
    split_ifs at h
    simp only [Except.ok.injEq, Prod.mk.injEq] at h
    obtain ⟨h1, _⟩ := h
    rw [← h1, get_study]
    rw [assocGet_assocSet_self]
  · intro ms2 evs h
    rw [register_dataset] at h
    split_ifs at h
    simp only [Except.ok.injEq, Prod.mk.injEq] at h
    obtain ⟨h1, _⟩ := h
    rw [← h1, get_dataset]
    rw [assocGet_assocSet_self]

/-- Witness for C8 at a concrete registration in each component. -/
theorem C8_read_after_write_witness :
    get_study ⟨[(exHash, ⟨exHash, 77, 100⟩)]⟩ exHash =
        .ok ⟨exHash, 77, 100⟩ ∧
      get_dataset ⟨[([1], ⟨[1], [[2]], 5⟩)], [], none, none⟩ [1] =
        .ok ⟨[1], [[2]], 5⟩ :=
  ⟨(C8_read_after_write ⟨[]⟩ ⟨[], [], none, none⟩ exHash [1] [1] 77 100
      [1] [[2]] 5).1 ⟨[(exHash, ⟨exHash, 77, 100⟩)]⟩
      [SEvent.StudyRegistered exHash 77 100] rfl,
    (C8_read_after_write ⟨[]⟩ ⟨[], [], none, none⟩ exHash [1] [1] 77 100
      [1] [[2]] 5).2 ⟨[([1], ⟨[1], [[2]], 5⟩)], [], none, none⟩
      [MEvent.DatasetRegistered [1] 5 1] rfl⟩

/-- Claim C5: with the study-registry link set, contributor resolution
walks the study hashes in list order, skipping those whose length is not
32 bytes and those that resolve to no study, so the resulting contributor
list is exactly the contributors of the well-formed, resolved hashes in
order, and is never longer than the study list. -/
theorem C5_contributor_resolution (ms : MarketState) (reg : RegistryState)
    (study_ids : List Bytes) (a : Address)
    (h : ms.study_registry = some a) :
    get_contributors_from_studies ms reg study_ids =
        .ok (study_ids.filterMap (fun sid =>
          if sid.length = 32 then
            (assocGet sid reg.studies).map StudyRecord.contributor
          else none)) ∧
      (resolveContributors reg study_ids).length ≤ study_ids.length := by
  refine ⟨?_, resolveContributors_length_le reg study_ids⟩
  rw [get_contributors_from_studies, h, ← resolveContributors_eq_filterMap]

/-- Witness for C5: one resolvable 32-byte hash, one malformed hash and one
unresolved 32-byte hash yield exactly the one contributor. -/
theorem C5_contributor_resolution_witness :
    get_contributors_from_studies ⟨[], [], none, some 7⟩ exRegistry
        [exHash, [9], List.replicate 32 2] = .ok [77] ∧
      (resolveContributors exRegistry
        [exHash, [9], List.replicate 32 2]).length ≤ 3 :=
  C5_contributor_resolution ⟨[], [], none, some 7⟩ exRegistry
    [exHash, [9], List.replicate 32 2] 7 rfl

/-- Claim C10: every dataset stored by `register_dataset` has a positive
price, and for any stored dataset with positive price `purchase_dataset`
never fails with `PaymentFailed` — the mock payment verification checks
exactly that the price is positive, so its failure branch is unreachable
for registered datasets. -/
theorem C10_payment_never_fails (ms0 : MarketState) (dataset_id : Bytes)
    (study_ids : List Bytes) (price_usdc : Int) (ms : MarketState)
    (reg : RegistryState) (sp : SplitterState)
    (transferOk : Address → Address → Int → Bool) (splitterAddr : Address)
    (buyer : Address) (now : Nat) :
    (∀ ms2 evs, register_dataset ms0 dataset_id study_ids price_usdc =
        .ok (ms2, evs) →
      ∀ d, assocGet dataset_id ms2.datasets = some d → 0 < d.price_usdc) ∧
    (∀ d, assocGet dataset_id ms.datasets = some d → 0 < d.price_usdc →
      purchase_dataset ms reg sp transferOk splitterAddr dataset_id buyer
        now ≠ .error (.merr .PaymentFailed)) := by
  constructor
  · intro ms2 evs h d hd
    rw [register_dataset] at h
    split_ifs at h with h1 h2 h3 h4
    simp only [Except.ok.injEq, Prod.mk.injEq] at h
    obtain ⟨hs, _⟩ := h
    rw [← hs] at hd
    simp only [assocGet_assocSet_self, Option.some.injEq] at hd
    rw [← hd]
    exact lt_of_not_le h3
  · intro d hd hp hcontra
    rw [purchase_dataset, hd] at hcontra
    dsimp only at hcontra
    rw [if_neg (by simp [verify_payment_mock, hp])] at hcontra
    cases hg : get_contributors_from_studies
        (purchase_record_state ms dataset_id buyer now) reg d.study_ids with
    | error e =>
      rw [hg] at hcontra
      obtain ⟨he, _⟩ := get_contributors_error _ _ _ _ hg
      rw [he] at hcontra
      simp at hcontra
    | ok contributors =>
      rw [hg] at hcontra
      dsimp only at hcontra
      by_cases hlen : 0 < contributors.length
      · rw [if_pos hlen] at hcontra
        cases hrs : (purchase_record_state ms dataset_id buyer
            now).revenue_splitter with
        | none => rw [hrs] at hcontra; simp at hcontra
        | some a =>
          rw [hrs] at hcontra
          dsimp only at hcontra
          cases hpay : payout_for_dataset sp transferOk splitterAddr
              dataset_id contributors with
          | error e => rw [hpay] at hcontra; simp at hcontra
          | ok p =>
            obtain ⟨ts, rvs⟩ := p
            rw [hpay] at hcontra
            simp at hcontra
      · rw [if_neg hlen] at hcontra
        simp at hcontra

/-- Witness for C10: a concrete registration followed by a purchase whose
outcome is not `PaymentFailed`. -/
theorem C10_payment_never_fails_witness :
    (0 : Int) < (5 : Int) ∧
      purchase_dataset ⟨[([1], ⟨[1], [[2]], 5⟩)], [], none, none⟩ ⟨[]⟩
        ⟨none, none⟩ (fun _ _ _ => true) 0 [1] 42 0 ≠
        .error (.merr .PaymentFailed) :=
  ⟨(C10_payment_never_fails ⟨[], [], none, none⟩ [1] [[2]] 5
      ⟨[([1], ⟨[1], [[2]], 5⟩)], [], none, none⟩ ⟨[]⟩ ⟨none, none⟩
      (fun _ _ _ => true) 0 42 0).1
      ⟨[([1], ⟨[1], [[2]], 5⟩)], [], none, none⟩
      [MEvent.DatasetRegistered [1] 5 1] rfl ⟨[1], [[2]], 5⟩ rfl,
    (C10_payment_never_fails ⟨[], [], none, none⟩ [1] [[2]] 5
      ⟨[([1], ⟨[1], [[2]], 5⟩)], [], none, none⟩ ⟨[]⟩ ⟨none, none⟩
      (fun _ _ _ => true) 0 42 0).2 ⟨[1], [[2]], 5⟩ rfl (by decide)⟩

/-- Claim C9: when every study hash of a stored dataset (with positive
price) is malformed or unresolved, so the resolved contributor list is
empty, `purchase_dataset` succeeds without consulting the revenue-splitter
link (which may be unset), performs no payout transfers and no payout
events, and still persists the `PurchaseRecord` and emits
`DatasetPurchased`. -/
theorem C9_empty_resolution_purchase (ms : MarketState)
    (reg : RegistryState) (sp : SplitterState)
    (transferOk : Address → Address → Int → Bool) (splitterAddr : Address)
    (dataset_id : Bytes) (buyer : Address) (now : Nat) (d : Dataset)
    (a : Address) (hd : assocGet dataset_id ms.datasets = some d)
    (hp : 0 < d.price_usdc) (hsr : ms.study_registry = some a)
    (hskip : ∀ sid ∈ d.study_ids, sid.length = 32 →
      assocGet sid reg.studies = none) :
    purchase_dataset ms reg sp transferOk splitterAddr dataset_id buyer
        now = .ok (purchase_record_state ms dataset_id buyer now,
          [MEvent.DatasetPurchased buyer dataset_id d.price_usdc], [], [],
          d) ∧
      get_purchase (purchase_commit ms reg sp transferOk splitterAddr
          dataset_id buyer now) dataset_id buyer =
        .ok ⟨buyer, dataset_id, generate_tx_hash dataset_id buyer now⟩ := by
  have hres : resolveContributors reg d.study_ids = [] :=
    resolveContributors_eq_nil reg d.study_ids hskip
  have h1 : purchase_dataset ms reg sp transferOk splitterAddr dataset_id
      buyer now = .ok (purchase_record_state ms dataset_id buyer now,
        [MEvent.DatasetPurchased buyer dataset_id d.price_usdc], [], [],
        d) := by
    rw [purchase_dataset, hd]
    dsimp only
    rw [if_neg (by simp [verify_payment_mock, hp])]
    rw [get_contributors_from_studies,
      purchase_record_state_study_registry, hsr]
    dsimp only
    rw [hres]
    rfl
  refine ⟨h1, ?_⟩
  rw [purchase_commit, h1]
  dsimp only
  rw [get_purchase, purchase_record_state]
  dsimp only
  rw [assocGet_assocSet_self]

/-- Witness for C9: the revenue-splitter link is unset, the only study hash
has length 1, and the purchase still succeeds and records the purchase. -/
theorem C9_empty_resolution_purchase_witness :
    purchase_dataset ⟨[([1], ⟨[1], [[9]], 5⟩)], [], none, some 7⟩ ⟨[]⟩
        ⟨none, none⟩ (fun _ _ _ => true) 0 [1] 42 0 =
      .ok (purchase_record_state ⟨[([1], ⟨[1], [[9]], 5⟩)], [], none,
          some 7⟩ [1] 42 0,
        [MEvent.DatasetPurchased 42 [1] 5], [], [], ⟨[1], [[9]], 5⟩) ∧
      get_purchase (purchase_commit ⟨[([1], ⟨[1], [[9]], 5⟩)], [], none,
          some 7⟩ ⟨[]⟩ ⟨none, none⟩ (fun _ _ _ => true) 0 [1] 42 0) [1]
        42 = .ok ⟨42, [1], generate_tx_hash [1] 42 0⟩ :=
  C9_empty_resolution_purchase ⟨[([1], ⟨[1], [[9]], 5⟩)], [], none,
      some 7⟩ ⟨[]⟩ ⟨none, none⟩ (fun _ _ _ => true) 0 [1] 42 0
    ⟨[1], [[9]], 5⟩ 7 rfl (by decide) rfl (by decide)

/-- Claim C3 counterexample: the revenue-splitter link is unset, yet
`purchase_dataset` on a registered dataset (whose single study hash
resolves to nothing) succeeds and creates a `PurchaseRecord`, so an unset
revenue-splitter link does not always fail the purchase. -/
theorem C3_counterexample :
    (⟨[([1], ⟨[1], [[9]], 5⟩)], [], none, some 7⟩ :
        MarketState).revenue_splitter = none ∧
      purchaseOk (purchase_dataset ⟨[([1], ⟨[1], [[9]], 5⟩)], [], none,
        some 7⟩ ⟨[]⟩ ⟨none, none⟩ (fun _ _ _ => true) 0 [1] 42 0) =
        true ∧
      get_purchase (purchase_commit ⟨[([1], ⟨[1], [[9]], 5⟩)], [], none,
          some 7⟩ ⟨[]⟩ ⟨none, none⟩ (fun _ _ _ => true) 0 [1] 42 0) [1]
        42 = .ok ⟨42, [1], generate_tx_hash [1] 42 0⟩ :=
  ⟨rfl, rfl, rfl⟩

/-- Claim C3 (amended): on a stored dataset with positive price, an unset
study-registry link always fails the purchase with `StudyRegistryNotSet`
and no `PurchaseRecord` is created; an unset revenue-splitter link fails
the purchase with `RevenueSplitterNotSet` (again with nothing persisted)
exactly when the resolved contributor list is non-empty — when it resolves
empty the purchase succeeds without the link (claim C9). -/
theorem C3_link_unset (ms : MarketState) (reg : RegistryState)
    (sp : SplitterState) (transferOk : Address → Address → Int → Bool)
    (splitterAddr : Address) (dataset_id : Bytes) (buyer : Address)
    (now : Nat) (d : Dataset)
    (hd : assocGet dataset_id ms.datasets = some d)
    (hp : 0 < d.price_usdc) :
    (ms.study_registry = none →
      purchase_dataset ms reg sp transferOk splitterAddr dataset_id buyer
          now = .error (.merr .StudyRegistryNotSet) ∧
        purchase_commit ms reg sp transferOk splitterAddr dataset_id buyer
          now = ms) ∧
    (∀ a, ms.study_registry = some a → ms.revenue_splitter = none →
      resolveContributors reg d.study_ids ≠ [] →
      purchase_dataset ms reg sp transferOk splitterAddr dataset_id buyer
          now = .error (.merr .RevenueSplitterNotSet) ∧
        purchase_commit ms reg sp transferOk splitterAddr dataset_id buyer
          now = ms) := by
  constructor
  · intro hnone
    have h1 : purchase_dataset ms reg sp transferOk splitterAddr dataset_id
        buyer now = .error (.merr .StudyRegistryNotSet) := by
      rw [purchase_dataset, hd]
      dsimp only
      rw [if_neg (by simp [verify_payment_mock, hp])]
      rw [get_contributors_from_studies,
        purchase_record_state_study_registry, hnone]
    exact ⟨h1, by rw [purchase_commit, h1]⟩
  · intro a hsome hrsnone hne
    have hlen : 0 < (resolveContributors reg d.study_ids).length :=
      List.length_pos.mpr hne
    have h1 : purchase_dataset ms reg sp transferOk splitterAddr dataset_id
        buyer now = .error (.merr .RevenueSplitterNotSet) := by
      rw [purchase_dataset, hd]
      dsimp only
      rw [if_neg (by simp [verify_payment_mock, hp])]
      rw [get_contributors_from_studies,
        purchase_record_state_study_registry, hsome]
      dsimp only
      rw [if_pos hlen, purchase_record_state_revenue_splitter, hrsnone]
    exact ⟨h1, by rw [purchase_commit, h1]⟩

/-- Witness for C3 (amended): an unset study-registry link on one concrete
state, and an unset revenue-splitter link with a resolvable contributor on
another, each abort the purchase with the matching error and leave the
state unchanged. -/
theorem C3_link_unset_witness :
    purchase_dataset ⟨[([1], ⟨[1], [exHash], 5⟩)], [], some 5, none⟩
          exRegistry ⟨none, none⟩ (fun _ _ _ => true) 0 [1] 42 0 =
        .error (.merr .StudyRegistryNotSet) ∧
      purchase_commit ⟨[([1], ⟨[1], [exHash], 5⟩)], [], some 5, none⟩
          exRegistry ⟨none, none⟩ (fun _ _ _ => true) 0 [1] 42 0 =
        ⟨[([1], ⟨[1], [exHash], 5⟩)], [], some 5, none⟩ ∧
      purchase_dataset ⟨[([1], ⟨[1], [exHash], 5⟩)], [], none, some 7⟩
          exRegistry ⟨none, none⟩ (fun _ _ _ => true) 0 [1] 42 0 =
        .error (.merr .RevenueSplitterNotSet) ∧
      purchase_commit ⟨[([1], ⟨[1], [exHash], 5⟩)], [], none, some 7⟩
          exRegistry ⟨none, none⟩ (fun _ _ _ => true) 0 [1] 42 0 =
        ⟨[([1], ⟨[1], [exHash], 5⟩)], [], none, some 7⟩ :=
  ⟨((C3_link_unset ⟨[([1], ⟨[1], [exHash], 5⟩)], [], some 5, none⟩
      exRegistry ⟨none, none⟩ (fun _ _ _ => true) 0 [1] 42 0
      ⟨[1], [exHash], 5⟩ rfl (by decide)).1 rfl).1,
    ((C3_link_unset ⟨[([1], ⟨[1], [exHash], 5⟩)], [], some 5, none⟩
      exRegistry ⟨none, none⟩ (fun _ _ _ => true) 0 [1] 42 0
      ⟨[1], [exHash], 5⟩ rfl (by decide)).1 rfl).2,
    ((C3_link_unset ⟨[([1], ⟨[1], [exHash], 5⟩)], [], none, some 7⟩
      exRegistry ⟨none, none⟩ (fun _ _ _ => true) 0 [1] 42 0
      ⟨[1], [exHash], 5⟩ rfl (by decide)).2 7 rfl rfl (by decide)).1,
    ((C3_link_unset ⟨[([1], ⟨[1], [exHash], 5⟩)], [], none, some 7⟩
      exRegistry ⟨none, none⟩ (fun _ _ _ => true) 0 [1] 42 0
      ⟨[1], [exHash], 5⟩ rfl (by decide)).2 7 rfl rfl (by decide)).2⟩

/-- Claim C1: the payout sub-call and the purchase form one atomic unit —
if `payout_for_dataset` fails, `purchase_dataset` aborts as a whole with
nothing persisted (no `PurchaseRecord` in the committed state and no
`DatasetPurchased` event), and whenever `purchase_dataset` succeeds either
the resolved contributor list was empty (no payout attempted, claim C9) or
the payout completed successfully with exactly the returned transfers and
events. -/
theorem C1_purchase_payout_atomic (ms : MarketState) (reg : RegistryState)
    (sp : SplitterState) (transferOk : Address → Address → Int → Bool)
    (splitterAddr : Address) (dataset_id : Bytes) (buyer : Address)
    (now : Nat) :
    (∀ d a b e, assocGet dataset_id ms.datasets = some d →
      0 < d.price_usdc → ms.study_registry = some a →
      ms.revenue_splitter = some b →
      resolveContributors reg d.study_ids ≠ [] →
      payout_for_dataset sp transferOk splitterAddr dataset_id
        (resolveContributors reg d.study_ids) = .error e →
      purchase_dataset ms reg sp transferOk splitterAddr dataset_id buyer
          now = .error (.payoutTrap e) ∧
        purchase_commit ms reg sp transferOk splitterAddr dataset_id buyer
          now = ms ∧
        purchase_mEvents ms reg sp transferOk splitterAddr dataset_id buyer
          now = []) ∧
    (∀ ms2 evs ts rvs d, purchase_dataset ms reg sp transferOk splitterAddr
        dataset_id buyer now = .ok (ms2, evs, ts, rvs, d) →
      (resolveContributors reg d.study_ids = [] ∧ ts = [] ∧ rvs = []) ∨
      (resolveContributors reg d.study_ids ≠ [] ∧
        payout_for_dataset sp transferOk splitterAddr dataset_id
          (resolveContributors reg d.study_ids) = .ok (ts, rvs))) := by
  constructor
  · intro d a b e hd hp hsr hrs hne hpay
    have hlen : 0 < (resolveContributors reg d.study_ids).length :=
      List.length_pos.mpr hne
    have h1 : purchase_dataset ms reg sp transferOk splitterAddr dataset_id
        buyer now = .error (.payoutTrap e) := by
      rw [purchase_dataset, hd]
      dsimp only
      rw [if_neg (by simp [verify_payment_mock, hp])]
      rw [get_contributors_from_studies,
        purchase_record_state_study_registry, hsr]
      dsimp only
      rw [if_pos hlen, purchase_record_state_revenue_splitter, hrs]
      dsimp only
      rw [hpay]
    exact ⟨h1, by rw [purchase_commit, h1], by rw [purchase_mEvents, h1]⟩
  · intro ms2 evs ts rvs d h
    rw [purchase_dataset] at h
    cases hd : assocGet dataset_id ms.datasets with
    | none => rw [hd] at h; exact absurd h (by simp)
    | some d0 =>
      rw [hd] at h
      dsimp only at h
      by_cases hv : verify_payment_mock buyer d0.price_usdc = false
      · rw [if_pos hv] at h; exact absurd h (by simp)
      · rw [if_neg hv] at h
        cases hg : get_contributors_from_studies
            (purchase_record_state ms dataset_id buyer now) reg
            d0.study_ids with
        | error e2 => rw [hg] at h; exact absurd h (by simp)
        | ok contributors =>
          have hc : contributors = resolveContributors reg d0.study_ids :=
            get_contributors_ok _ _ _ _ hg
          rw [hg] at h
          dsimp only at h
          by_cases hlen : 0 < contributors.length
          · rw [if_pos hlen] at h
            cases hrs : (purchase_record_state ms dataset_id buyer
                now).revenue_splitter with
            | none => rw [hrs] at h; exact absurd h (by simp)
            | some b =>
              rw [hrs] at h
              dsimp only at h
              cases hpay : payout_for_dataset sp transferOk splitterAddr
                  dataset_id contributors with
              | error e2 => rw [hpay] at h; exact absurd h (by simp)
              | ok p =>
                obtain ⟨ts0, rvs0⟩ := p
                rw [hpay] at h
                simp only [Except.ok.injEq, Prod.mk.injEq] at h
                obtain ⟨_, _, hts, hrvs, hdd⟩ := h
                right
                rw [← hdd, ← hc]
                constructor
                · intro hnil
                  rw [hnil] at hlen
                  simp at hlen
                · rw [← hts, ← hrvs]
                  exact hpay
          · rw [if_neg hlen] at h
            simp only [Except.ok.injEq, Prod.mk.injEq] at h
            obtain ⟨_, _, hts, hrvs, hdd⟩ := h
            left
            rw [← hdd, ← hc]
            have hcon : contributors = [] :=
              List.length_eq_zero.mp (Nat.eq_zero_of_not_pos hlen)
            exact ⟨hcon, hts.symm, hrvs.symm⟩


/-- Witness for C1: on a concrete state with one resolvable contributor,
an unconfigured splitter makes the payout fail and the whole purchase
revert; configuring it makes the purchase succeed with the payout's
transfers and events. -/
theorem C1_purchase_payout_atomic_witness :
    purchase_dataset ⟨[([1], ⟨[1], [exHash], 5⟩)], [], some 5, some 7⟩
        exRegistry ⟨none, none⟩ (fun _ _ _ => true) 0 [1] 42 0 =
      .error (.payoutTrap .TokenNotSet) ∧
    purchase_commit ⟨[([1], ⟨[1], [exHash], 5⟩)], [], some 5, some 7⟩
        exRegistry ⟨none, none⟩ (fun _ _ _ => true) 0 [1] 42 0 =
      ⟨[([1], ⟨[1], [exHash], 5⟩)], [], some 5, some 7⟩ ∧
    purchase_mEvents ⟨[([1], ⟨[1], [exHash], 5⟩)], [], some 5, some 7⟩
        exRegistry ⟨none, none⟩ (fun _ _ _ => true) 0 [1] 42 0 = [] ∧
    ((resolveContributors exRegistry
        (⟨[1], [exHash], 5⟩ : Dataset).study_ids = [] ∧
        ([⟨0, 77, 85000000⟩, ⟨0, 2, 15000000⟩] : List Transfer) = [] ∧
        ([REvent.ContributorRewarded [1] 77 85000000 15000000,
          REvent.DatasetPayoutCompleted [1] 1 85000000 15000000] :
            List REvent) = []) ∨
      (resolveContributors exRegistry
          (⟨[1], [exHash], 5⟩ : Dataset).study_ids ≠ [] ∧
        payout_for_dataset ⟨some 1, some 2⟩ (fun _ _ _ => true) 0 [1]
            (resolveContributors exRegistry
              (⟨[1], [exHash], 5⟩ : Dataset).study_ids) =
          .ok ([⟨0, 77, 85000000⟩, ⟨0, 2, 15000000⟩],
            [REvent.ContributorRewarded [1] 77 85000000 15000000,
              REvent.DatasetPayoutCompleted [1] 1 85000000 15000000]))) :=
  ⟨((C1_purchase_payout_atomic ⟨[([1], ⟨[1], [exHash], 5⟩)], [], some 5,
        some 7⟩ exRegistry ⟨none, none⟩ (fun _ _ _ => true) 0 [1] 42 0).1
      ⟨[1], [exHash], 5⟩ 7 5 .TokenNotSet rfl (by decide) rfl rfl
      (by decide) rfl).1,
    ((C1_purchase_payout_atomic ⟨[([1], ⟨[1], [exHash], 5⟩)], [], some 5,
        some 7⟩ exRegistry ⟨none, none⟩ (fun _ _ _ => true) 0 [1] 42 0).1
      ⟨[1], [exHash], 5⟩ 7 5 .TokenNotSet rfl (by decide) rfl rfl
      (by decide) rfl).2.1,
    ((C1_purchase_payout_atomic ⟨[([1], ⟨[1], [exHash], 5⟩)], [], some 5,
        some 7⟩ exRegistry ⟨none, none⟩ (fun _ _ _ => true) 0 [1] 42 0).1
      ⟨[1], [exHash], 5⟩ 7 5 .TokenNotSet rfl (by decide) rfl rfl
      (by decide) rfl).2.2,
    (C1_purchase_payout_atomic ⟨[([1], ⟨[1], [exHash], 5⟩)], [], some 5,
        some 7⟩ exRegistry ⟨some 1, some 2⟩ (fun _ _ _ => true) 0 [1] 42
        0).2
      (purchase_record_state ⟨[([1], ⟨[1], [exHash], 5⟩)], [], some 5,
        some 7⟩ [1] 42 0)
      [MEvent.DatasetPurchased 42 [1] 5]
      [⟨0, 77, 85000000⟩, ⟨0, 2, 15000000⟩]
      [REvent.ContributorRewarded [1] 77 85000000 15000000,
        REvent.DatasetPayoutCompleted [1] 1 85000000 15000000]
      ⟨[1], [exHash], 5⟩ rfl⟩

end Claims

end BioChain
